import Mathlib

/-!
Verification of the KDAC (Kernel Dimension Alternative Clustering) engine
from `cpp/include/kdac.h`, embedded shallowly.

Matrices are dynamically sized in the C++ source (Eigen), so they are
modelled as a record of row count, column count and a total entry
function; entries outside the stated bounds are unobserved.  The dense
linear-algebra collaborators used by the engine (`GenKernelMatrix`,
`GenDegreeMatrix`, the SVD solver and row normalization) are declared in
headers that are not part of the engine itself, so they are abstract
parameters of the embedding, gathered in `CpuOps`.
-/

namespace Nice

/-- A dynamically sized dense matrix: row count, column count, and a total
entry function (entries outside the bounds are never observed). -/
structure Mat (α : Type) where
  rows : ℕ
  cols : ℕ
  entry : ℕ → ℕ → α

/-- A dynamically sized dense vector. -/
structure Vec (α : Type) where
  len : ℕ
  entry : ℕ → α

/-- The identity matrix `Matrix<T>::Identity(n, n)`. -/
def Mat.identity {α : Type} [Zero α] [One α] (n : ℕ) : Mat α :=
  ⟨n, n, fun i j => if i = j then 1 else 0⟩

/-- The constant matrix `Matrix<T>::Constant(n, m, v)`. -/
def Mat.constant {α : Type} (n m : ℕ) (v : α) : Mat α :=
  ⟨n, m, fun _ _ => v⟩

/-- Matrix product, as Eigen's `operator*` on dynamically sized matrices. -/
def Mat.mul {α : Type} [Mul α] [AddCommMonoid α] (A B : Mat α) : Mat α :=
  ⟨A.rows, B.cols, fun i j => ∑ l ∈ Finset.range A.cols, A.entry i l * B.entry l j⟩

/-- Entrywise matrix difference. -/
def Mat.sub {α : Type} [Sub α] (A B : Mat α) : Mat α :=
  ⟨A.rows, A.cols, fun i j => A.entry i j - B.entry i j⟩

/-- Division of a matrix by a scalar, as Eigen's `operator/`. -/
def Mat.divScalar {α : Type} [Div α] (A : Mat α) (s : α) : Mat α :=
  ⟨A.rows, A.cols, fun i j => A.entry i j / s⟩

/-- Eigen's `leftCols(c)` block: the first `c` columns. -/
def Mat.leftCols {α : Type} (A : Mat α) (c : ℕ) : Mat α :=
  ⟨A.rows, c, A.entry⟩

/-- The zero vector `Vector<T>::Zero(n)`. -/
def Vec.zero {α : Type} [Zero α] (n : ℕ) : Vec α :=
  ⟨n, fun _ => 0⟩

/-- An empty (0 by 0) matrix, the state of a default-constructed Eigen matrix. -/
def Mat.empty {α : Type} [Zero α] : Mat α :=
  ⟨0, 0, fun _ _ => 0⟩

/-- Symmetry of a dynamically sized matrix: square, and equal to its
transpose on all in-bounds entries. -/
def Mat.IsSymm {α : Type} (A : Mat α) : Prop :=
  A.rows = A.cols ∧ ∀ i < A.rows, ∀ j < A.rows, A.entry i j = A.entry j i

/-- Diagonality of a dynamically sized matrix: square, and zero on all
in-bounds off-diagonal entries. -/
def Mat.IsDiag {α : Type} [Zero α] (A : Mat α) : Prop :=
  A.rows = A.cols ∧ ∀ i < A.rows, ∀ j < A.rows, i ≠ j → A.entry i j = 0

/-- The kernel selector from `kernel_types.h` (referenced by `kdac.h` as
`kGaussianKernel`, `kPolynomialKernel`, `kLinearKernel`). -/
inductive KernelType where
  | kGaussianKernel
  | kPolynomialKernel
  | kLinearKernel
deriving DecidableEq

/-- The one fatal-error channel of the engine: `CheckCQ` prints to
`stderr` and calls `exit(1)`. -/
inductive KdacError where
  | configurationExit
deriving DecidableEq

/-- The dense linear-algebra collaborators the engine calls
(`CpuOperations<T>::GenKernelMatrix`, `CpuOperations<T>::GenDegreeMatrix`,
`SvdSolver<T>` and `CpuOperations<T>::Normalize`).  Their implementations
live outside the engine header, so they are abstract here;
`genDegreeMatrix` returns the pair (D, D^(-1/2)) that the C++ call fills
into its two output arguments, and `svdMatrixU` is the matrix of left
singular vectors the solver returns after `Compute`. -/
structure CpuOps (α : Type) where
  genKernelMatrix : Mat α → KernelType → α → Mat α
  genDegreeMatrix : Mat α → Mat α × Mat α
  svdMatrixU : Mat α → Mat α
  normalize : Mat α → ℕ → ℕ → Mat α

/-- The member state of `Nice::KDAC<T>`, one field per data member of the
C++ class (`c_`, `q_`, `n_`, `d_`, `kernel_type_`, `constant_`,
`u_converge`, `v_converge` and the matrices). -/
structure KDACState (α : Type) where
  c_ : ℤ
  q_ : ℤ
  n_ : ℕ
  d_ : ℕ
  kernel_type_ : KernelType
  constant_ : α
  u_converge : Bool
  v_converge : Bool
  x_matrix_ : Mat α
  w_matrix_ : Mat α
  y_matrix_ : Mat Bool
  d_matrix_ : Mat α
  d_matrix_to_the_minus_half_ : Mat α
  k_matrix_ : Mat α
  u_matrix_ : Mat α
  u_matrix_normalized_ : Mat α
  l_matrix_ : Mat α
  h_matrix_ : Mat α
  clustering_result : Vec α

/-- `KDAC::CheckCQ`: `if (q_ > c_) { ...; exit(1); }`; the `exit(1)` is
the error of the `Except`. -/
def checkCQ {α : Type} (s : KDACState α) : Except KdacError (KDACState α) :=
  if s.q_ > s.c_ then Except.error KdacError.configurationExit else Except.ok s

/-- `KDAC::SetC`: `c_ = c; CheckCQ();`. -/
def setC {α : Type} (s : KDACState α) (c : ℤ) : Except KdacError (KDACState α) :=
  checkCQ { s with c_ := c }

/-- `KDAC::SetQ`: `q_ = q; CheckCQ();`. -/
def setQ {α : Type} (s : KDACState α) (q : ℤ) : Except KdacError (KDACState α) :=
  checkCQ { s with q_ := q }

/-- `KDAC::SetKernel`: stores the kernel type and its constant. -/
def setKernel {α : Type} (s : KDACState α) (kt : KernelType) (k : α) : KDACState α :=
  { s with kernel_type_ := kt, constant_ := k }

/-- `KDAC::Init`: stores the input and its dimensions, sets
`w_matrix_ = Identity(d_, d_)`,
`h_matrix_ = Identity(n_, n_) - Constant(n_, n_, 1) / float(n_)`, zeroes
`clustering_result` and clears both convergence flags.  The resets of
`y_matrix_`, `d_matrix_`, `k_matrix_` and `u_matrix_` are commented out
in the source, so those members are left untouched. -/
def init {α : Type} [Field α] (s : KDACState α) (input : Mat α) : KDACState α :=
  { s with
    x_matrix_ := input
    n_ := input.rows
    d_ := input.cols
    w_matrix_ := Mat.identity input.cols
    h_matrix_ := (Mat.identity input.rows).sub
      ((Mat.constant input.rows input.rows 1).divScalar (input.rows : α))
    clustering_result := Vec.zero input.rows
    u_converge := false
    v_converge := false }

/-- `KDAC::OptimizeU`: project X onto W, build the kernel matrix from the
projection, derive D and D^(-1/2), form L = D^(-1/2) * K * D^(-1/2),
take the leading `c_` left singular vectors of L as U, and row-normalize
U. -/
def optimizeU {α : Type} [Field α] (ops : CpuOps α) (s : KDACState α) : KDACState α :=
  let projected_x_matrix := s.x_matrix_.mul s.w_matrix_
  let k := ops.genKernelMatrix projected_x_matrix s.kernel_type_ s.constant_
  let dd := ops.genDegreeMatrix k
  let l := (dd.2.mul k).mul dd.2
  let u := (ops.svdMatrixU l).leftCols s.c_.toNat
  { s with
    k_matrix_ := k
    d_matrix_ := dd.1
    d_matrix_to_the_minus_half_ := dd.2
    l_matrix_ := l
    u_matrix_ := u
    u_matrix_normalized_ := ops.normalize u 2 1 }

/-- `KDAC::OptimizeW`: the function body is empty in the source, so the
state is unchanged. -/
def optimizeW {α : Type} (s : KDACState α) : KDACState α :=
  s

/-- `KDAC::Fit(input)` as a state transformer: `Init(input); OptimizeU();
OptimizeW();`. -/
def fitState {α : Type} [Field α] (ops : CpuOps α) (s : KDACState α) (input : Mat α) :
    KDACState α :=
  optimizeW (optimizeU ops (init s input))

/-- `KDAC::Fit(input)` on the engine's error channel: its call graph
(`Init`, `OptimizeU`, `OptimizeW`) contains no exit or throw, so it
always returns normally. -/
def fit {α : Type} [Field α] (ops : CpuOps α) (s : KDACState α) (input : Mat α) :
    Except KdacError (KDACState α) :=
  Except.ok (fitState ops s input)

/-- `KDAC::Predict`: the function body is empty in the source (the
declared `Vector<T>` is never produced), so no clustering result is
returned. -/
def predict {α : Type} (_s : KDACState α) : Option (Vec α) :=
  none

/-- Whether a call returned normally (did not hit `exit(1)`). -/
def returnsNormally {α : Type} (e : Except KdacError (KDACState α)) : Bool :=
  match e with
  | Except.ok _ => true
  | Except.error _ => false

/-- The engine state right after the default constructor `KDAC()`
(`SetC(2); SetQ(2); SetKernel(kGaussianKernel, 1.0);`): c = q = 2,
Gaussian kernel with constant 1, matrices default-constructed (empty),
remaining scalars taken as zero/false. -/
def kdacDefault (α : Type) [Field α] : KDACState α :=
  { c_ := 2
    q_ := 2
    n_ := 0
    d_ := 0
    kernel_type_ := KernelType.kGaussianKernel
    constant_ := 1
    u_converge := false
    v_converge := false
    x_matrix_ := Mat.empty
    w_matrix_ := Mat.empty
    y_matrix_ := ⟨0, 0, fun _ _ => false⟩
    d_matrix_ := Mat.empty
    d_matrix_to_the_minus_half_ := Mat.empty
    k_matrix_ := Mat.empty
    u_matrix_ := Mat.empty
    u_matrix_normalized_ := Mat.empty
    l_matrix_ := Mat.empty
    h_matrix_ := Mat.empty
    clustering_result := ⟨0, fun _ => 0⟩ }

/-- The outputs of one embedding update, written following the spec.
Used to compare `KDAC::OptimizeU` against the specified pipeline. -/
structure EmbeddingOutputs (α : Type) where
  k : Mat α
  d : Mat α
  dmh : Mat α
  l : Mat α
  u : Mat α
  uNormalized : Mat α

/-- The embedding update as the spec words it, step by step: project the
data, compute the kernel matrix over the projection, derive the degree
matrix and its inverse square root, form the normalized affinity
L = D^(-1/2) * K * D^(-1/2), take the leading c components of the
decomposition of L as U, and row-normalize U. -/
def specEmbeddingUpdate {α : Type} [Field α] (ops : CpuOps α) (x w : Mat α)
    (kt : KernelType) (param : α) (c : ℕ) : EmbeddingOutputs α :=
  let xProj := x.mul w
  let k := ops.genKernelMatrix xProj kt param
  let dd := ops.genDegreeMatrix k
  let l := (dd.2.mul k).mul dd.2
  let u := (ops.svdMatrixU l).leftCols c
  ⟨k, dd.1, dd.2, l, u, ops.normalize u 2 1⟩

/-- Decidability of symmetry for concrete matrices. -/
instance {α : Type} [DecidableEq α] (A : Mat α) : Decidable A.IsSymm := by
  unfold Mat.IsSymm
  infer_instance

/-- Decidability of diagonality for concrete matrices. -/
instance {α : Type} [Zero α] [DecidableEq α] (A : Mat α) : Decidable A.IsDiag := by
  unfold Mat.IsDiag
  infer_instance

/-- Inversion for a `CheckCQ` call that returned normally. -/
lemma checkCQ_ok_inv {α : Type} {s s' : KDACState α}
    (h : checkCQ s = Except.ok s') : s' = s ∧ s.q_ ≤ s.c_ := by
  unfold checkCQ at h
  split at h
  · exact absurd h (by simp)
  · next hn =>
    injection h with h'
    exact ⟨h'.symm, by omega⟩

/-- `CheckCQ` hits `exit(1)` exactly when q exceeds c. -/
lemma checkCQ_eq_error {α : Type} (s : KDACState α) (h : s.c_ < s.q_) :
    checkCQ s = Except.error KdacError.configurationExit := by
  unfold checkCQ
  rw [if_pos (by omega)]

/-- C1: `KDAC::OptimizeU` computes exactly the specified pipeline: the
kernel matrix over the projected data X * W, the degree matrix D and
D^(-1/2) from it, the normalized matrix L = D^(-1/2) * K * D^(-1/2), the
embedding U as the leading c left singular vectors of L, and the
row-normalized U. -/
theorem claimC1_optimizeU_follows_spec_steps (α : Type) [Field α]
    (ops : CpuOps α) (s : KDACState α) :
    let e := specEmbeddingUpdate ops s.x_matrix_ s.w_matrix_ s.kernel_type_
      s.constant_ s.c_.toNat
    (optimizeU ops s).k_matrix_ = e.k ∧
    (optimizeU ops s).d_matrix_ = e.d ∧
    (optimizeU ops s).d_matrix_to_the_minus_half_ = e.dmh ∧
    (optimizeU ops s).l_matrix_ = e.l ∧
    (optimizeU ops s).u_matrix_ = e.u ∧
    (optimizeU ops s).u_matrix_normalized_ = e.uNormalized :=
  ⟨rfl, rfl, rfl, rfl, rfl, rfl⟩

/-- C2: `KDAC::Fit` runs exactly one EMBED phase and one (empty) PROJECT
phase with no repetition: both convergence flags are false after `Fit`
on every input, and stay false even though a further round would leave
U_normalized exactly unchanged (so the claimed convergence judgement
never happens and the flags can never be set). -/
theorem claimC2_fit_runs_single_round_without_convergence (α : Type) [Field α]
    (ops : CpuOps α) (s : KDACState α) (x : Mat α) :
    (fitState ops s x).u_converge = false ∧
    (fitState ops s x).v_converge = false ∧
    (optimizeW (optimizeU ops (fitState ops s x))).u_matrix_normalized_
      = (fitState ops s x).u_matrix_normalized_ ∧
    (optimizeW (optimizeU ops (fitState ops s x))).u_converge = false :=
  ⟨rfl, rfl, rfl, rfl⟩

/-- C3: a setter call that returns normally leaves q ≤ c, and a call
that would violate q ≤ c terminates with the fatal configuration exit,
at configuration time. -/
theorem claimC3_setters_enforce_q_le_c :
    (∀ (α : Type) (s s' : KDACState α) (c : ℤ),
      setC s c = Except.ok s' → s'.q_ ≤ s'.c_) ∧
    (∀ (α : Type) (s s' : KDACState α) (q : ℤ),
      setQ s q = Except.ok s' → s'.q_ ≤ s'.c_) ∧
    (∀ (α : Type) (s : KDACState α) (c : ℤ),
      c < s.q_ → setC s c = Except.error KdacError.configurationExit) ∧
    (∀ (α : Type) (s : KDACState α) (q : ℤ),
      s.c_ < q → setQ s q = Except.error KdacError.configurationExit) := by
  refine ⟨?_, ?_, ?_, ?_⟩
  · intro α s s' c h
    obtain ⟨rfl, hle⟩ := checkCQ_ok_inv h
    exact hle
  · intro α s s' q h
    obtain ⟨rfl, hle⟩ := checkCQ_ok_inv h
    exact hle
  · intro α s c h
    exact checkCQ_eq_error { s with c_ := c } h
  · intro α s q h
    exact checkCQ_eq_error { s with q_ := q } h

/-- Witness for C3 at concrete inputs: `SetC(5)` from the default engine
returns normally with q = 2 ≤ c = 5, and `SetQ(7)` from the default
engine exits fatally. -/
theorem claimC3_witness :
    ({ kdacDefault ℚ with c_ := 5 } : KDACState ℚ).q_
      ≤ ({ kdacDefault ℚ with c_ := 5 } : KDACState ℚ).c_ ∧
    setQ (kdacDefault ℚ) 7 = Except.error KdacError.configurationExit :=
  ⟨claimC3_setters_enforce_q_le_c.1 ℚ (kdacDefault ℚ) _ 5 rfl,
   claimC3_setters_enforce_q_le_c.2.2.2 ℚ (kdacDefault ℚ) 7 (by decide)⟩

/-- C4: `KDAC::Predict` has an empty body in the source and produces no
clustering result, in particular after a completed `Fit`; it performs no
precondition check either. -/
theorem claimC4_predict_returns_no_result (α : Type) [Field α]
    (ops : CpuOps α) (s : KDACState α) (x : Mat α) :
    predict (fitState ops s x) = none ∧ ∀ t : KDACState α, predict t = none :=
  ⟨rfl, fun _ => rfl⟩

/-- A concrete 1 by 3 input (one sample, three features). -/
def x13 : Mat ℚ :=
  ⟨1, 3, fun _ _ => 1⟩

/-- A concrete 2 by 2 input. -/
def x22 : Mat ℚ :=
  ⟨2, 2, fun i j => if i = j then 1 else 0⟩

/-- C5 counterexample: with the default configuration (c = 2, q = 2) and
a 1 by 3 input (d = 3), `Init` sets W to the full 3 by 3 identity, not
to the 3 by 2 left columns of the identity the claim requires. -/
theorem claimC5_counterexample :
    (init (kdacDefault ℚ) x13).w_matrix_.cols = 3 ∧
    (init (kdacDefault ℚ) x13).q_ = 2 ∧
    (init (kdacDefault ℚ) x13).w_matrix_.cols ≠ ((init (kdacDefault ℚ) x13).q_).toNat := by
  refine ⟨rfl, rfl, ?_⟩
  decide

/-- C5 amended: `Init` sets W to the full d by d identity for every input
and every configuration, regardless of q. -/
theorem claimC5_w_full_identity (α : Type) [Field α]
    (s : KDACState α) (x : Mat α) :
    (init s x).w_matrix_ = Mat.identity x.cols ∧
    (init s x).w_matrix_.rows = x.cols ∧
    (init s x).w_matrix_.cols = x.cols :=
  ⟨rfl, rfl, rfl⟩

/-- Collaborators that mark the kernel matrix with a recognizable value,
used to observe that the optimization phase ran. -/
def opsMark : CpuOps ℚ :=
  { genKernelMatrix := fun _ _ _ => Mat.constant 1 1 9
    genDegreeMatrix := fun k => (k, k)
    svdMatrixU := fun m => m
    normalize := fun m _ _ => m }

/-- C6 counterexample: `Fit` on the empty (0 by 0) input returns
normally — no error of any kind is reported — and the optimization phase
runs (the kernel collaborator's output lands in `k_matrix_`). -/
theorem claimC6_counterexample :
    returnsNormally (fit opsMark (kdacDefault ℚ) Mat.empty) = true ∧
    (fitState opsMark (kdacDefault ℚ) Mat.empty).k_matrix_.entry 0 0 = 9 ∧
    (kdacDefault ℚ).k_matrix_.entry 0 0 = 0 :=
  ⟨rfl, rfl, rfl⟩

/-- C6 amended: `Fit` performs no input validation at all: it returns
normally on every input, empty or not. -/
theorem claimC6_fit_accepts_all_inputs (α : Type) [Field α]
    (ops : CpuOps α) (s : KDACState α) (x : Mat α) :
    returnsNormally (fit ops s x) = true :=
  rfl

/-- An engine state carrying recognizable kernel and embedding matrices
from a previous fit. -/
def sStale : KDACState ℚ :=
  { kdacDefault ℚ with
    k_matrix_ := Mat.constant 2 2 7
    u_matrix_ := Mat.constant 2 2 5 }

/-- C8 counterexample: `Init` does not clear the kernel or embedding
matrices — the resets are commented out in the source — so a previous
fit's K and U survive initialization unchanged. -/
theorem claimC8_counterexample :
    (init sStale x22).k_matrix_ = Mat.constant 2 2 7 ∧
    (init sStale x22).u_matrix_ = Mat.constant 2 2 5 ∧
    (init sStale x22).k_matrix_.entry 0 0 = 7 :=
  ⟨rfl, rfl, rfl⟩

/-- C8 amended: `Init` stores n and d, computes the centering matrix
H = I - (1/n) * ones(n, n) entrywise, zeroes the clustering result and
clears both convergence flags, but leaves K, D, L, U and U_normalized
untouched (their resets are commented out); they are only overwritten
when `OptimizeU` runs inside the new `Fit`. -/
theorem claimC8_init_partial_reset (α : Type) [Field α]
    (s : KDACState α) (x : Mat α) :
    (init s x).n_ = x.rows ∧
    (init s x).d_ = x.cols ∧
    (init s x).u_converge = false ∧
    (init s x).v_converge = false ∧
    (init s x).clustering_result = Vec.zero x.rows ∧
    (init s x).k_matrix_ = s.k_matrix_ ∧
    (init s x).d_matrix_ = s.d_matrix_ ∧
    (init s x).d_matrix_to_the_minus_half_ = s.d_matrix_to_the_minus_half_ ∧
    (init s x).l_matrix_ = s.l_matrix_ ∧
    (init s x).u_matrix_ = s.u_matrix_ ∧
    (init s x).u_matrix_normalized_ = s.u_matrix_normalized_ ∧
    (init s x).h_matrix_.rows = x.rows ∧
    (init s x).h_matrix_.cols = x.rows ∧
    ∀ i j : ℕ, (init s x).h_matrix_.entry i j
      = (if i = j then (1 : α) else 0) - 1 / (x.rows : α) :=
  ⟨rfl, rfl, rfl, rfl, rfl, rfl, rfl, rfl, rfl, rfl, rfl, rfl, rfl, fun _ _ => rfl⟩

/-- C10: the q ≤ c check runs after each individual setter against the
other parameter's current value, so setter order matters: from the
default configuration (c = 2, q = 2), `SetQ(3)` alone exits fatally,
while `SetC(3)` followed by `SetQ(3)` reaches the same final
configuration normally. -/
theorem claimC10_setter_order_matters :
    setQ (kdacDefault ℚ) 3 = Except.error KdacError.configurationExit ∧
    (setC (kdacDefault ℚ) 3).bind (fun t => setQ t 3)
      = Except.ok { kdacDefault ℚ with c_ := 3, q_ := 3 } :=
  ⟨rfl, rfl⟩

/-- Multiplying by a diagonal matrix on the left scales rows: the sum
defining the product collapses to its diagonal term. -/
lemma diag_mul_entry {α : Type} [Field α] (D K : Mat α) (hD : D.IsDiag)
    (i m : ℕ) (hi : i < D.rows) :
    (D.mul K).entry i m = D.entry i i * K.entry i m := by
  show (∑ l ∈ Finset.range D.cols, D.entry i l * K.entry l m)
    = D.entry i i * K.entry i m
  rw [← hD.1]
  apply Finset.sum_eq_single_of_mem i (Finset.mem_range.mpr hi)
  intro b hb hne
  rw [hD.2 i hi b (Finset.mem_range.mp hb) (Ne.symm hne), zero_mul]

/-- Multiplying by a diagonal matrix on the right scales columns: the sum
defining the product collapses to its diagonal term. -/
lemma mul_diag_entry {α : Type} [Field α] (A D : Mat α) (hD : D.IsDiag)
    (m j : ℕ) (hj : j < D.rows) (hcols : A.cols = D.rows) :
    (A.mul D).entry m j = A.entry m j * D.entry j j := by
  show (∑ l ∈ Finset.range A.cols, A.entry m l * D.entry l j)
    = A.entry m j * D.entry j j
  rw [hcols]
  apply Finset.sum_eq_single_of_mem j (Finset.mem_range.mpr hj)
  intro b hb hne
  rw [hD.2 b (Finset.mem_range.mp hb) j hj hne, mul_zero]

/-- The in-bounds entries of D * K * D for diagonal D. -/
lemma sandwich_entry {α : Type} [Field α] (D K : Mat α) (hD : D.IsDiag)
    (hdim : D.rows = K.rows) (hKsq : K.rows = K.cols)
    (i j : ℕ) (hi : i < D.rows) (hj : j < D.rows) :
    ((D.mul K).mul D).entry i j = D.entry i i * K.entry i j * D.entry j j := by
  have hcols : (D.mul K).cols = D.rows := by
    show K.cols = D.rows
    omega
  rw [mul_diag_entry (D.mul K) D hD i j hj hcols, diag_mul_entry D K hD i j hi]

/-- Sandwiching a symmetric matrix between copies of a diagonal matrix of
matching size yields a symmetric matrix. -/
lemma sandwich_symm {α : Type} [Field α] (D K : Mat α) (hK : K.IsSymm)
    (hD : D.IsDiag) (hdim : D.rows = K.rows) :
    ((D.mul K).mul D).IsSymm := by
  constructor
  · exact hD.1
  · intro i hi j hj
    have hi' : i < D.rows := hi
    have hj' : j < D.rows := hj
    rw [sandwich_entry D K hD hdim hK.1 i j hi' hj',
        sandwich_entry D K hD hdim hK.1 j i hj' hi',
        hK.2 i (hdim ▸ hi') j (hdim ▸ hj')]
    ring

/-- C9: the matrix L = D^(-1/2) * K * D^(-1/2) computed by
`KDAC::OptimizeU` is symmetric whenever the kernel matrix is symmetric
and the produced D^(-1/2) is diagonal of matching size. -/
theorem claimC9_l_matrix_symmetric (α : Type) [Field α]
    (ops : CpuOps α) (s : KDACState α)
    (hK : (optimizeU ops s).k_matrix_.IsSymm)
    (hD : (optimizeU ops s).d_matrix_to_the_minus_half_.IsDiag)
    (hdim : (optimizeU ops s).d_matrix_to_the_minus_half_.rows
      = (optimizeU ops s).k_matrix_.rows) :
    (optimizeU ops s).l_matrix_.IsSymm :=
  sandwich_symm _ _ hK hD hdim

/-- A concrete symmetric 2 by 2 kernel matrix. -/
def kSymm : Mat ℚ :=
  ⟨2, 2, fun i j => if i = j then 2 else 1⟩

/-- A concrete diagonal 2 by 2 degree matrix. -/
def dDeg : Mat ℚ :=
  ⟨2, 2, fun i j => if i = j then 3 else 0⟩

/-- A concrete diagonal 2 by 2 inverse-square-root degree matrix. -/
def dHalfDiag : Mat ℚ :=
  ⟨2, 2, fun i j => if i = j then (1 : ℚ) / 2 else 0⟩

/-- Concrete collaborators producing the symmetric kernel and diagonal
degree matrices above. -/
def opsSymm : CpuOps ℚ :=
  { genKernelMatrix := fun _ _ _ => kSymm
    genDegreeMatrix := fun _ => (dDeg, dHalfDiag)
    svdMatrixU := fun m => m
    normalize := fun m _ _ => m }

/-- Witness for C9 at a concrete engine run: the L matrix computed from
the symmetric 2 by 2 kernel and the diagonal D^(-1/2) is symmetric. -/
theorem claimC9_witness :
    Mat.IsSymm ((optimizeU opsSymm (kdacDefault ℚ)).l_matrix_) :=
  claimC9_l_matrix_symmetric ℚ opsSymm (kdacDefault ℚ)
    (by decide) (by decide) (by decide)

end Nice
